import Mathlib

/-!
Shallow embedding of `ctxdb.go` (package ctxdb): a context-based database
handle registry (`With`, `getDB`), a transaction orchestrator (`Tx`) and
delegated access helpers (`Exec`, `Query`, `QueryRow`).

Go interface error values are modelled by the inductive `GoError`, whose
derived decidable equality matches Go's `==` on error interface values
(identity of dynamic type and value); `GoError.wrap` models an error created
by wrapping another (its `Unwrap` yields the inner error), and `errorsIs`
models Go's `errors.Is` unwrapping search, which the source does NOT use.

`Tx` is embedded as `TxRun`, which returns the function result together with
the trace of calls issued against the database handle (begin / work
invocation / rollback / commit), so that claims about which operations are
performed, and how often, are statements about the trace.
-/

namespace Ctxdb

/-- Go error interface values relevant to the package: the `rollback` struct
value (the `Rollback` sentinel, whose `Error()` is "rolling back"), errors
created by `errors.New` (distinct identities even for equal messages, hence
the `id` field), and errors wrapping an inner error. -/
inductive GoError
  | rollback
  | errNew (msg : String) (id : Nat)
  | wrap (msg : String) (inner : GoError)
deriving DecidableEq, Repr

/-- The message returned by the Go `Error()` method of each modelled error. -/
def GoError.message : GoError → String
  | .rollback => "rolling back"
  | .errNew m _ => m
  | .wrap m _ => m

/-- Source: `var Rollback error = rollback{}` — the exported abort sentinel. -/
def Rollback : GoError := GoError.rollback

/-- Source: `errMissingDB = errors.New("missing Databaser in context")`. -/
def errMissingDB : GoError := GoError.errNew "missing Databaser in context" 0

/-- Source: `errCantTx = errors.New("can't begin transaction on Databaser in context")`. -/
def errCantTx : GoError := GoError.errNew "can't begin transaction on Databaser in context" 1

/-- Go `errors.Is(e, target)`: equality, or a match after unwrapping.
The source compares with `==` and never calls this; it is defined to state
that a wrapped `Rollback` would match under `errors.Is` yet is not absorbed. -/
def errorsIs : GoError → GoError → Bool
  | .wrap m inner, target => decide (GoError.wrap m inner = target) || errorsIs inner target
  | e, target => decide (e = target)

/-- Model of `sql.TxOptions` (isolation level and read-only flag); `Tx` always
passes `nil` for it, modelled as `none : Option TxOptions`. -/
structure TxOptions where
  isolation : Nat
  readOnly : Bool
deriving DecidableEq, Repr

/-- Behaviour of a `*sql.Tx` as far as the orchestrator consumes it: the
results of its `Commit()` and `Rollback()` calls. -/
structure TxSpec where
  commitErr : Option GoError
  rollbackErr : Option GoError

/-- A `Databaser` handle. `db` is a handle that additionally implements the
`beginTxer` capability (`sql.DB`, `sql.Conn`): its `beginTx` field is the
behaviour of `BeginTx` as a function of the options, returning the
`(tx, err)` pair. `txh` is a transaction handle (`*sql.Tx`), which satisfies
`Databaser` but has no `BeginTx` method; `plain` is any other `Databaser`
without the capability. -/
inductive Handle
  | db (beginTx : Option TxOptions → Option GoError × TxSpec)
  | txh (t : TxSpec)
  | plain (id : Nat)

/-- The `beginTxer` type assertion `db.(beginTxer)` succeeds exactly on the
begin-capable variant. -/
def hasBeginTx : Handle → Bool
  | .db _ => true
  | _ => false

/-- A Go `context.Context` restricted to what the package touches: the
background context, and `context.WithValue(parent, connKey\x7b\x7d, v)` nodes,
where `v = none` models a nil `Databaser` interface value stored under the
key. -/
inductive Context
  | background
  | withValue (parent : Context) (val : Option Handle)

/-- Source `With`: `context.WithValue(ctx, connKey\x7b\x7d, db)`. -/
def With (ctx : Context) (db : Option Handle) : Context :=
  Context.withValue ctx db

/-- Source `getDB`: `ctx.Value(connKey\x7b\x7d).(Databaser)`. The nearest
`withValue` node wins; a stored nil interface value fails the type assertion,
as does the absence of any binding, so both yield `none`. -/
def getDB : Context → Option Handle
  | .background => none
  | .withValue _ v => v

/-- One observable call issued by `Tx` against the handle or the work
function, in order of occurrence. -/
inductive Event
  | beginCall
  | workCall (c : Context)
  | rollbackCall
  | commitCall

/-- Source `Tx`, instrumented with the trace of issued calls. Control flow
mirrors the source line by line: missing handle, failed `beginTxer`
assertion, `BeginTx(ctx, nil)` error, then `f(With(ctx, tx))`; on a non-nil
error `tx.Rollback()` is issued (result discarded) before the `err == Rollback`
identity test; on nil, `tx.Commit()`'s result is returned. -/
def TxRun (ctx : Context) (f : Context → Option GoError) :
    Option GoError × List Event :=
  match getDB ctx with
  | none => (some errMissingDB, [])
  | some db =>
    match db with
    | Handle.db beginTx =>
      match beginTx none with
      | (some e, _) => (some e, [Event.beginCall])
      | (none, tx) =>
        let c := With ctx (some (Handle.txh tx))
        match f c with
        | some e =>
          if e = Rollback then
            (none, [Event.beginCall, Event.workCall c, Event.rollbackCall])
          else
            (some e, [Event.beginCall, Event.workCall c, Event.rollbackCall])
        | none =>
          (tx.commitErr, [Event.beginCall, Event.workCall c, Event.commitCall])
    | _ => (some errCantTx, [])

/-- Source `Tx`'s return value: the error component of the instrumented run. -/
def Tx (ctx : Context) (f : Context → Option GoError) : Option GoError :=
  (TxRun ctx f).1

/-- Source `Exec`: resolve the handle, fail with `errMissingDB` if absent,
else delegate to the handle's `ExecContext` (the external collaborator,
abstracted as `impl`). A `sql.Result` is abstracted as a `Nat`. -/
def Exec (impl : Handle → Context → String → List String → Option Nat × Option GoError)
    (ctx : Context) (query : String) (args : List String) :
    Option Nat × Option GoError :=
  match getDB ctx with
  | none => (none, some errMissingDB)
  | some db => impl db ctx query args

/-- Source `Query`: resolve the handle, fail with `errMissingDB` if absent,
else delegate to the handle's `QueryContext`. A `*sql.Rows` is abstracted as
a `Nat`. -/
def Query (impl : Handle → Context → String → List String → Option Nat × Option GoError)
    (ctx : Context) (query : String) (args : List String) :
    Option Nat × Option GoError :=
  match getDB ctx with
  | none => (none, some errMissingDB)
  | some db => impl db ctx query args

/-- Modelled from the spec: the source's missing-handle branch of `QueryRow`
builds `(&row\x7berr: errMissingDB\x7d).intoDBRow()`, but the `row` struct and
`intoDBRow` are not in the provided source file. Per the spec, the query-one
path returns a usable row object that defers its stored error until the
caller consumes (scans) it. -/
structure Row where
  err : Option GoError

/-- Modelled from the spec: consuming (scanning) the row surfaces the stored
deferred error. -/
def Row.scan (r : Row) : Option GoError := r.err

/-- Source `QueryRow`: resolve the handle; if absent return a row carrying the
deferred `errMissingDB`; else delegate to the handle's `QueryRowContext`. -/
def QueryRow (impl : Handle → Context → String → List String → Row)
    (ctx : Context) (query : String) (args : List String) : Row :=
  match getDB ctx with
  | none => { err := some errMissingDB }
  | some db => impl db ctx query args

/-- A transaction behaviour whose commit and rollback both succeed. -/
def tSample : TxSpec := { commitErr := none, rollbackErr := none }

/-- A `BeginTx` behaviour that succeeds with `tSample` for any options. -/
def bSample : Option TxOptions → Option GoError × TxSpec := fun _ => (none, tSample)

/-- A begin-capable sample handle. -/
def hSample : Handle := Handle.db bSample

/-- A context carrying the begin-capable sample handle. -/
def ctxSample : Context := Context.withValue Context.background (some hSample)

/-- A transaction behaviour whose rollback fails. -/
def tFailRb : TxSpec :=
  { commitErr := none, rollbackErr := some (GoError.errNew "rb failed" 3) }

/-- A `BeginTx` behaviour succeeding with `tFailRb`. -/
def bFailRb : Option TxOptions → Option GoError × TxSpec := fun _ => (none, tFailRb)

/-- A context carrying a handle whose transactions fail to roll back. -/
def ctxFailRb : Context :=
  Context.withValue Context.background (some (Handle.db bFailRb))

/-- A transaction behaviour whose commit fails. -/
def tFailCommit : TxSpec :=
  { commitErr := some (GoError.errNew "commit failed" 4), rollbackErr := none }

/-- A `BeginTx` behaviour succeeding with `tFailCommit`. -/
def bFailCommit : Option TxOptions → Option GoError × TxSpec :=
  fun _ => (none, tFailCommit)

/-- A context carrying a handle whose transactions fail to commit. -/
def ctxFailCommit : Context :=
  Context.withValue Context.background (some (Handle.db bFailCommit))

/-- A `BeginTx` behaviour that fails outright. -/
def bFailBegin : Option TxOptions → Option GoError × TxSpec :=
  fun _ => (some (GoError.errNew "begin failed" 2), tSample)

/-- A context carrying a handle on which beginning a transaction fails. -/
def ctxFailBegin : Context :=
  Context.withValue Context.background (some (Handle.db bFailBegin))

/-- Extending a context always yields a structurally new context, never the
input itself: the chain strictly grows. -/
theorem withValue_ne : ∀ (ctx : Context) (v : Option Handle),
    Context.withValue ctx v ≠ ctx := by
  intro ctx
  induction ctx with
  | background => intro v h; exact Context.noConfusion h
  | withValue p w ih =>
    intro v h
    injection h with h1 _
    exact ih w h1

/-- Claim C8: `With ctx h` is a new context (not the input, which is left
untouched as its parent), resolution on it finds `h`, and a later `With`
shadows any earlier binding, so the nearest binding always wins. -/
theorem with_attaches_and_shadows (ctx : Context) (h : Handle) (v : Option Handle) :
    getDB (With ctx (some h)) = some h
    ∧ With ctx v ≠ ctx
    ∧ With ctx v = Context.withValue ctx v
    ∧ getDB (With (With ctx v) (some h)) = some h := by
  refine ⟨rfl, withValue_ne ctx v, rfl, rfl⟩

/-- Claim C10: attaching a nil interface value behaves like attaching none —
resolution fails the type assertion, so `Tx`, `Exec` and `Query` return the
missing-handle error without delegating, and `QueryRow` takes its
missing-handle branch. -/
theorem with_nil_behaves_missing (ctx : Context) :
    getDB (With ctx none) = none
    ∧ (∀ f, TxRun (With ctx none) f = (some errMissingDB, []))
    ∧ (∀ impl q args, Exec impl (With ctx none) q args = (none, some errMissingDB))
    ∧ (∀ impl q args, Query impl (With ctx none) q args = (none, some errMissingDB))
    ∧ (∀ impl q args, QueryRow impl (With ctx none) q args = { err := some errMissingDB }) := by
  refine ⟨rfl, fun f => rfl, fun impl q args => rfl, fun impl q args => rfl,
    fun impl q args => rfl⟩

/-- Claim C5: on a context with no handle bound, `Exec`, `Query` and `Tx`
return the missing-handle error with no delegated call and no work
invocation (empty trace), while `QueryRow` returns a row object whose
consumption (scan) yields the missing-handle error. -/
theorem missing_handle_behavior (ctx : Context) (hnone : getDB ctx = none) :
    (∀ f, TxRun ctx f = (some errMissingDB, []))
    ∧ (∀ impl q args, Exec impl ctx q args = (none, some errMissingDB))
    ∧ (∀ impl q args, Query impl ctx q args = (none, some errMissingDB))
    ∧ (∀ impl q args, QueryRow impl ctx q args = { err := some errMissingDB }
        ∧ (QueryRow impl ctx q args).scan = some errMissingDB) := by
  refine ⟨fun f => ?_, fun impl q args => ?_, fun impl q args => ?_,
    fun impl q args => ⟨?_, ?_⟩⟩ <;>
    simp [TxRun, Exec, Query, QueryRow, Row.scan, hnone]

/-- Witness for C5 at the background context. -/
theorem missing_handle_behavior_witness :
    TxRun Context.background (fun _ => none) = (some errMissingDB, [])
    ∧ Exec (fun _ _ _ _ => (none, none)) Context.background "q" [] = (none, some errMissingDB)
    ∧ (QueryRow (fun _ _ _ _ => { err := none }) Context.background "q" []).scan
        = some errMissingDB :=
  ⟨(missing_handle_behavior Context.background rfl).1 _,
   (missing_handle_behavior Context.background rfl).2.1 _ "q" [],
   ((missing_handle_behavior Context.background rfl).2.2.2 _ "q" []).2⟩

/-- Claim C4: when the resolved handle lacks the `beginTxer` capability — in
particular when it is a transaction handle — `Tx` returns `errCantTx` with
an empty trace: the work function is not invoked and no operation is issued
on the handle. -/
theorem tx_cant_begin (ctx : Context) (h : Handle)
    (hdb : getDB ctx = some h) (hcap : hasBeginTx h = false)
    (f : Context → Option GoError) :
    TxRun ctx f = (some errCantTx, [])
    ∧ ∀ t : TxSpec, hasBeginTx (Handle.txh t) = false := by
  refine ⟨?_, fun t => rfl⟩
  cases h with
  | db b => simp [hasBeginTx] at hcap
  | txh t => simp [TxRun, hdb]
  | plain n => simp [TxRun, hdb]

/-- Witness for C4 at a context carrying a transaction handle. -/
theorem tx_cant_begin_witness :
    TxRun (Context.withValue Context.background (some (Handle.txh tSample)))
      (fun _ => none) = (some errCantTx, []) :=
  (tx_cant_begin (Context.withValue Context.background (some (Handle.txh tSample)))
    (Handle.txh tSample) rfl rfl (fun _ => none)).1

/-- Claim C6: with a begin-capable handle, `Tx` calls `BeginTx` with nil
(default) options; if that fails, the error is returned verbatim and the
trace contains only the begin call — the work function is never invoked. -/
theorem tx_begin_failure (ctx : Context)
    (b : Option TxOptions → Option GoError × TxSpec) (e : GoError) (t : TxSpec)
    (hdb : getDB ctx = some (Handle.db b)) (hb : b none = (some e, t))
    (f : Context → Option GoError) :
    TxRun ctx f = (some e, [Event.beginCall]) := by
  simp [TxRun, hdb, hb]

/-- Witness for C6 with a handle whose `BeginTx` fails. -/
theorem tx_begin_failure_witness :
    TxRun ctxFailBegin (fun _ => none)
      = (some (GoError.errNew "begin failed" 2), [Event.beginCall]) :=
  tx_begin_failure ctxFailBegin bFailBegin (GoError.errNew "begin failed" 2)
    tSample rfl rfl (fun _ => none)

/-- Claim C1: with a begin-capable handle and a successful begin, a work
function returning the `Rollback` sentinel makes `Tx` issue a rollback
(its result — whatever `rollbackErr` is — is discarded) and return nil;
and the absorption test is by identity, not by message: any distinct error
sharing the sentinel's message is returned, not absorbed. -/
theorem tx_abort_absorbed (ctx : Context)
    (b : Option TxOptions → Option GoError × TxSpec) (t : TxSpec)
    (f : Context → Option GoError)
    (hdb : getDB ctx = some (Handle.db b)) (hb : b none = (none, t))
    (hf : f (With ctx (some (Handle.txh t))) = some Rollback) :
    TxRun ctx f = (none,
      [Event.beginCall, Event.workCall (With ctx (some (Handle.txh t))),
       Event.rollbackCall])
    ∧ ∀ e : GoError, e.message = Rollback.message → e ≠ Rollback →
        ∀ g : Context → Option GoError,
          g (With ctx (some (Handle.txh t))) = some e →
          (TxRun ctx g).1 = some e := by
  constructor
  · simp [TxRun, hdb, hb, hf]
  · intro e _ hne g hg
    simp [TxRun, hdb, hb, hg, hne]

/-- Witness for C1: abort absorbed even though rollback itself fails, and a
same-message impostor error is surfaced. -/
theorem tx_abort_absorbed_witness :
    (TxRun ctxFailRb (fun _ => some Rollback)).1 = none
    ∧ (TxRun ctxFailRb (fun _ => some (GoError.errNew "rolling back" 9))).1
        = some (GoError.errNew "rolling back" 9) :=
  ⟨congrArg Prod.fst
    (tx_abort_absorbed ctxFailRb bFailRb tFailRb
      (fun _ => some Rollback) rfl rfl rfl).1,
   (tx_abort_absorbed ctxFailRb bFailRb tFailRb
      (fun _ => some Rollback) rfl rfl rfl).2
     (GoError.errNew "rolling back" 9) rfl (by decide)
     (fun _ => some (GoError.errNew "rolling back" 9)) rfl⟩

/-- Claim C2: with a begin-capable handle and a successful begin, a work
function returning a non-nil error other than the sentinel makes `Tx` issue a
rollback — whose result, any `rollbackErr` whatsoever, is discarded — and
return exactly that error, unchanged. -/
theorem tx_error_rolls_back (ctx : Context)
    (b : Option TxOptions → Option GoError × TxSpec) (t : TxSpec)
    (f : Context → Option GoError) (e : GoError)
    (hdb : getDB ctx = some (Handle.db b)) (hb : b none = (none, t))
    (hf : f (With ctx (some (Handle.txh t))) = some e) (hne : e ≠ Rollback) :
    TxRun ctx f = (some e,
      [Event.beginCall, Event.workCall (With ctx (some (Handle.txh t))),
       Event.rollbackCall]) := by
  simp [TxRun, hdb, hb, hf, hne]

/-- Witness for C2: an ordinary error is returned unchanged even though the
rollback itself fails. -/
theorem tx_error_rolls_back_witness :
    TxRun ctxFailRb (fun _ => some (GoError.errNew "boom" 7))
    = (some (GoError.errNew "boom" 7),
       [Event.beginCall,
        Event.workCall (With ctxFailRb (some (Handle.txh tFailRb))),
        Event.rollbackCall]) :=
  tx_error_rolls_back ctxFailRb bFailRb tFailRb
    (fun _ => some (GoError.errNew "boom" 7)) (GoError.errNew "boom" 7)
    rfl rfl rfl (by decide)

/-- Claim C3: with a begin-capable handle and a successful begin, a work
function returning nil makes `Tx` commit and return the commit's own result:
nil on success, the commit error itself on failure. -/
theorem tx_nil_commits (ctx : Context)
    (b : Option TxOptions → Option GoError × TxSpec) (t : TxSpec)
    (f : Context → Option GoError)
    (hdb : getDB ctx = some (Handle.db b)) (hb : b none = (none, t))
    (hf : f (With ctx (some (Handle.txh t))) = none) :
    TxRun ctx f = (t.commitErr,
      [Event.beginCall, Event.workCall (With ctx (some (Handle.txh t))),
       Event.commitCall]) := by
  simp [TxRun, hdb, hb, hf]

/-- Witness for C3 in both directions: a succeeding commit yields nil, a
failing commit's error is surfaced. -/
theorem tx_nil_commits_witness :
    (TxRun ctxSample (fun _ => none)).1 = none
    ∧ (TxRun ctxFailCommit (fun _ => none)).1
        = some (GoError.errNew "commit failed" 4) :=
  ⟨congrArg Prod.fst
    (tx_nil_commits ctxSample bSample tSample (fun _ => none) rfl rfl rfl),
   congrArg Prod.fst
    (tx_nil_commits ctxFailCommit bFailCommit tFailCommit
      (fun _ => none) rfl rfl rfl)⟩

/-- Claim C7: whenever a begin-capable handle is resolved and the begin
succeeds, the trace is exactly one begin call, then exactly one invocation of
the work function — synchronously, with the derived context in which the new
transaction handle is the one resolved — then exactly one terminal action,
a commit or a rollback; the work function is never retried. -/
theorem tx_exactly_once (ctx : Context)
    (b : Option TxOptions → Option GoError × TxSpec) (t : TxSpec)
    (f : Context → Option GoError)
    (hdb : getDB ctx = some (Handle.db b)) (hb : b none = (none, t)) :
    getDB (With ctx (some (Handle.txh t))) = some (Handle.txh t)
    ∧ ∃ term : Event,
        (TxRun ctx f).2
          = [Event.beginCall, Event.workCall (With ctx (some (Handle.txh t))), term]
        ∧ (term = Event.commitCall ∨ term = Event.rollbackCall) := by
  refine ⟨rfl, ?_⟩
  cases hfc : f (With ctx (some (Handle.txh t))) with
  | none =>
    exact ⟨Event.commitCall, by simp [TxRun, hdb, hb, hfc], Or.inl rfl⟩
  | some e =>
    refine ⟨Event.rollbackCall, ?_, Or.inr rfl⟩
    by_cases he : e = Rollback <;> simp [TxRun, hdb, hb, hfc, he]

/-- Witness for C7 on the sample context with a committing work function. -/
theorem tx_exactly_once_witness :
    getDB (With ctxSample (some (Handle.txh tSample))) = some (Handle.txh tSample)
    ∧ ∃ term : Event,
        (TxRun ctxSample (fun _ => none)).2
          = [Event.beginCall,
             Event.workCall (With ctxSample (some (Handle.txh tSample))), term]
        ∧ (term = Event.commitCall ∨ term = Event.rollbackCall) :=
  tx_exactly_once ctxSample bSample tSample (fun _ => none) rfl rfl

/-- Claim C9: the abort-absorption test is direct equality with the sentinel,
not an `errors.Is` unwrapping search: every error not identical to `Rollback`
is rolled back and surfaced as-is — including an error wrapping `Rollback`,
which `errors.Is` would match but which is not identical to the sentinel. -/
theorem tx_equality_not_unwrap (ctx : Context)
    (b : Option TxOptions → Option GoError × TxSpec) (t : TxSpec)
    (hdb : getDB ctx = some (Handle.db b)) (hb : b none = (none, t)) :
    (∀ e : GoError, e ≠ Rollback →
      ∀ g : Context → Option GoError,
        g (With ctx (some (Handle.txh t))) = some e →
        TxRun ctx g = (some e,
          [Event.beginCall, Event.workCall (With ctx (some (Handle.txh t))),
           Event.rollbackCall]))
    ∧ (∀ m : String,
        errorsIs (GoError.wrap m Rollback) Rollback = true
        ∧ GoError.wrap m Rollback ≠ Rollback) := by
  constructor
  · intro e hne g hg
    simp [TxRun, hdb, hb, hg, hne]
  · intro m
    constructor
    · simp [errorsIs, Rollback]
    · simp [Rollback]

/-- Witness for C9: a work function returning an error that wraps the
sentinel has the wrapped error surfaced, not absorbed, although `errors.Is`
matches it against the sentinel. -/
theorem tx_equality_not_unwrap_witness :
    TxRun ctxSample (fun _ => some (GoError.wrap "ctx" Rollback))
      = (some (GoError.wrap "ctx" Rollback),
         [Event.beginCall,
          Event.workCall (With ctxSample (some (Handle.txh tSample))),
          Event.rollbackCall])
    ∧ errorsIs (GoError.wrap "ctx" Rollback) Rollback = true :=
  ⟨(tx_equality_not_unwrap ctxSample bSample tSample rfl rfl).1
      (GoError.wrap "ctx" Rollback) (by decide)
      (fun _ => some (GoError.wrap "ctx" Rollback)) rfl,
   ((tx_equality_not_unwrap ctxSample bSample tSample rfl rfl).2 "ctx").1⟩

end Ctxdb
